import Mathlib

/-!
Verification development for the plannrs persistence core
(src/lib/src/db.rs, src/app/src/main.rs).

The repository defines an entity model (`Tag`, `Plan`), a fixed two-table
SQLite schema, and one bootstrap operation `create_or_get_handle` that
checks for the database at the fixed URL `DB_URL`, connects, and on one
branch issues the two `CREATE TABLE IF NOT EXISTS` statements.

The shallow embedding below models the storage engine state per location
(whether the database file exists, and how many `Tag` / `Plan` tables are
present), and translates `create_or_get_handle` statement by statement,
including the `match !Sqlite::database_exists(DB_URL)` scrutinee exactly as
written in the source.  `SqlitePool::connect` is modelled as the spec's
"open/create the underlying store" engine primitive (it opens the store at
the given url, creating it when missing).  The two table-creation
statements can be made to fail through an `Env` of injected engine errors,
so that error-propagation behaviour is visible.
-/

namespace Plannrs

/-- Display colour, as in the spec (§4.1): the fixed enumerable
16/256-value ANSI-style terminal palette, i.e. a small integer code
`0..255`.  In the source `ratatui::style::Color` plays this role. -/
def Color := Fin 256
deriving DecidableEq, Repr, Fintype

/-- Embedding of `struct Tag` (src/lib/src/db.rs:30-41).  `id` is a Rust
`u8`, so it is `Fin 256`; `border` and `fill` are `Option<Color>`;
`color` is required. -/
structure Tag where
  id : Fin 256
  name : String
  border : Option Color
  fill : Option Color
  color : Color

/-- Embedding of `struct Plan` (src/lib/src/db.rs:47-90).  `start` and
`until` are `chrono::DateTime<Local>` values, modelled as epoch seconds
(the source's own schema notes say they are stored as UNIX epoch `INT`);
`advance` is `Option<TimeDelta>`, modelled as an optional count of
seconds; `tag` is `Option<Tag>`.  Note the struct has no name field. -/
structure Plan where
  id : Fin 256
  description : String
  start : Int
  «until» : Int
  advance : Option Int
  done : Bool
  tag : Option Tag
  notify : Bool
  porsmo : Bool

/-- The DB URL constant (src/lib/src/db.rs:11). -/
def DB_URL : String := "sqlite://~/.plannrs.db"

/-- Engine-level state of one storage location: whether the database
exists there, and how many tables named `Tag` resp. `Plan` it holds.
Counts (rather than Booleans) let "no duplicate tables" be stated. -/
structure StoreState where
  dbExists : Bool
  tagTables : Nat
  planTables : Nat
deriving DecidableEq, Repr

/-- A location with no database. -/
def emptyStore : StoreState :=
  { dbExists := false, tagTables := 0, planTables := 0 }

/-- The world maps each location string to the store state there. -/
def World := String → StoreState

/-- Errors surfaced to the caller (the source's `anyhow::Result`). -/
inductive DbError where
  | execFailed : String → DbError
deriving DecidableEq, Repr

/-- Injected engine failures for the two table-creation statements. -/
structure Env where
  tagCreateFails : Bool
  planCreateFails : Bool
deriving DecidableEq, Repr

/-- No injected failures. -/
def env0 : Env := { tagCreateFails := false, planCreateFails := false }

/-- The connection handle returned by the bootstrap (the source's
`Box<Pool<Sqlite>>`): it identifies the location it is connected to. -/
structure Handle where
  url : String
deriving DecidableEq, Repr

/-- Model of `Sqlite::database_exists(url)`. -/
def database_exists (w : World) (url : String) : Bool :=
  (w url).dbExists

/-- Model of `SqlitePool::connect(url)`: opens the store at `url`,
creating it when missing (the spec's "open/create the underlying store"
engine primitive, §4.2 step 3). -/
def connect (w : World) (url : String) : World :=
  fun u =>
    if u = url then
      { dbExists := true, tagTables := (w url).tagTables,
        planTables := (w url).planTables }
    else w u

/-- Model of executing `CREATE TABLE IF NOT EXISTS Tag (...)` against the
handle for `url` (src/lib/src/db.rs:141-150): when the engine does not
fail the statement, a `Tag` table is created only if none is present. -/
def execCreateTagTable (env : Env) (w : World) (url : String) :
    Except DbError World :=
  if env.tagCreateFails then
    Except.error (DbError.execFailed "Tag")
  else
    Except.ok (fun u =>
      if u = url then
        { dbExists := (w url).dbExists,
          tagTables := max (w url).tagTables 1,
          planTables := (w url).planTables }
      else w u)

/-- Model of executing `CREATE TABLE IF NOT EXISTS Plan (...)` against
the handle for `url` (src/lib/src/db.rs:154-169). -/
def execCreatePlanTable (env : Env) (w : World) (url : String) :
    Except DbError World :=
  if env.planCreateFails then
    Except.error (DbError.execFailed "Plan")
  else
    Except.ok (fun u =>
      if u = url then
        { dbExists := (w url).dbExists,
          tagTables := (w url).tagTables,
          planTables := max (w url).planTables 1 }
      else w u)

/-- Shallow embedding of `create_or_get_handle`
(src/lib/src/db.rs:125-176), statement by statement.  The scrutinee is
`!Sqlite::database_exists(DB_URL)`, exactly as in the source: the `true`
arm (taken when the database does NOT exist, since the result of the
existence check is negated) prints "Database found..." and returns a
connection immediately; the `false` arm (taken when the database DOES
exist) prints "Database not found, creating new...", connects, and runs
the two table creations, propagating the first statement error with `?`. -/
def create_or_get_handle (env : Env) (w : World) :
    Except DbError (World × Handle) :=
  match !database_exists w DB_URL with
  | true =>
      -- println!("Database found...");
      Except.ok (connect w DB_URL, { url := DB_URL })
  | false =>
      -- println!("Database not found, creating new...");
      let w1 := connect w DB_URL
      match execCreateTagTable env w1 DB_URL with
      | Except.error e => Except.error e
      | Except.ok w2 =>
          match execCreatePlanTable env w2 DB_URL with
          | Except.error e => Except.error e
          | Except.ok w3 => Except.ok (w3, { url := DB_URL })

/-- Observable outcome of a bootstrap run: `none` when it errored,
otherwise the table counts at `DB_URL` in the resulting world. -/
def resultTables (r : Except DbError (World × Handle)) :
    Option (Nat × Nat) :=
  match r with
  | Except.ok (w, _) => some ((w DB_URL).tagTables, (w DB_URL).planTables)
  | Except.error _ => none

/-- Two bootstrap calls in sequence, the second against the world the
first produced (as `main` would if it ran the bootstrap twice). -/
def twoCalls (env : Env) (w : World) : Except DbError (World × Handle) :=
  match create_or_get_handle env w with
  | Except.ok (w1, _) => create_or_get_handle env w1
  | Except.error e => Except.error e

/-- A world with no database anywhere (first-ever startup). -/
def emptyWorld : World := fun _ => emptyStore

/-! ### The relational schema created by the bootstrap

Transliterated from the two SQL strings in `create_or_get_handle`
(src/lib/src/db.rs:141-150 and 154-169). -/

/-- SQL column types appearing in the two CREATE TABLE statements. -/
inductive SqlType where
  | int
  | text
  | tinyint
  | boolean
deriving DecidableEq, Repr

/-- One column of a table: its name, SQL type, and NOT NULL marker. -/
structure Column where
  name : String
  ty : SqlType
  notNull : Bool
deriving DecidableEq, Repr

/-- A FOREIGN KEY clause. -/
structure ForeignKey where
  column : String
  refTable : String
  refColumn : String
deriving DecidableEq, Repr

/-- A table definition: name, columns in declaration order, primary-key
columns, and foreign keys. -/
structure Table where
  name : String
  columns : List Column
  primaryKey : List String
  foreignKeys : List ForeignKey
deriving DecidableEq, Repr

/-- The `Tag` table, from the SQL at src/lib/src/db.rs:141-150. -/
def tagTableDef : Table :=
  { name := "Tag",
    columns :=
      [ { name := "ID", ty := SqlType.int, notNull := true },
        { name := "TagName", ty := SqlType.text, notNull := true },
        { name := "Border", ty := SqlType.tinyint, notNull := true },
        { name := "Fill", ty := SqlType.tinyint, notNull := true },
        { name := "Color", ty := SqlType.tinyint, notNull := true } ],
    primaryKey := ["ID"],
    foreignKeys := [] }

/-- The `Plan` table, from the SQL at src/lib/src/db.rs:154-169. -/
def planTableDef : Table :=
  { name := "Plan",
    columns :=
      [ { name := "ID", ty := SqlType.int, notNull := true },
        { name := "PlanName", ty := SqlType.text, notNull := true },
        { name := "Descr", ty := SqlType.text, notNull := true },
        { name := "StartTime", ty := SqlType.int, notNull := true },
        { name := "Until", ty := SqlType.int, notNull := true },
        { name := "Advance", ty := SqlType.int, notNull := true },
        { name := "Done", ty := SqlType.boolean, notNull := true },
        { name := "TagID", ty := SqlType.int, notNull := true },
        { name := "Notify", ty := SqlType.boolean, notNull := true },
        { name := "Porsmo", ty := SqlType.boolean, notNull := true } ],
    primaryKey := ["ID"],
    foreignKeys := [ { column := "TagID", refTable := "Tag",
                       refColumn := "ID" } ] }

/-- The full schema the bootstrap's creation branch issues, in statement
order (Tag first, then Plan). -/
def bootstrapSchema : List Table := [tagTableDef, planTableDef]

/-! ### The schema as the spec's section 4.2 table states it

A second definition following the spec's words, for the refinement claim
comparing the created schema with the spec's table.  The spec's field
labels are paraphrases of the on-disk SQL identifiers; `specFieldName`
records the correspondence between a spec label and the SQL column name
it denotes. -/

/-- Field labels of the `Tag` structure exactly as the spec's section 4.2
table lists them. -/
def specTagFields : List String :=
  ["id", "name", "border-code", "fill-code", "color-code"]

/-- Field labels of the `Plan` structure exactly as the spec's section
4.2 table lists them. -/
def specPlanFields : List String :=
  ["id", "name", "description", "start", "until", "advance", "done",
   "tag-id", "notify", "porsmo"]

/-- The correspondence between the spec's field labels and the SQL column
identifiers the code declares: spec labels are descriptive paraphrases
("tag-id" is not a legal unquoted SQL identifier), per table. -/
def specFieldName (table lbl : String) : String :=
  if lbl = "id" then "ID"
  else if lbl = "name" then (if table = "Tag" then "TagName" else "PlanName")
  else if lbl = "border-code" then "Border"
  else if lbl = "fill-code" then "Fill"
  else if lbl = "color-code" then "Color"
  else if lbl = "description" then "Descr"
  else if lbl = "start" then "StartTime"
  else if lbl = "until" then "Until"
  else if lbl = "advance" then "Advance"
  else if lbl = "done" then "Done"
  else if lbl = "tag-id" then "TagID"
  else if lbl = "notify" then "Notify"
  else if lbl = "porsmo" then "Porsmo"
  else lbl

/-- The SQL type the spec assigns to each spec field label: colour codes
persist as small integer codes (section 6: TINYINT-sized), names and the
description as text, timestamps as epoch-second integers (section 4.1),
`advance` as an integer count of seconds with a sentinel (section 4.1),
the three flags as booleans, and identifiers as integers. -/
def specFieldType (lbl : String) : SqlType :=
  if lbl = "name" then SqlType.text
  else if lbl = "description" then SqlType.text
  else if lbl = "border-code" then SqlType.tinyint
  else if lbl = "fill-code" then SqlType.tinyint
  else if lbl = "color-code" then SqlType.tinyint
  else if lbl = "done" then SqlType.boolean
  else if lbl = "notify" then SqlType.boolean
  else if lbl = "porsmo" then SqlType.boolean
  else SqlType.int

/-! ### Persistence codecs, modelled from the spec

No row-level read or write code exists under src/ — only the schema
columns are declared there — so the encodings below are modelled from the
spec's words. -/

/-- Modelled from the spec: the persistence encoding of an optional
colour into its column's small integer code.  The repository has no
encode/decode code for rows; section 4.1 requires "a lossless round-trip
through a small integer code" over the 16/256-value palette plus an
explicit unset state, and sections 6 and 9 require "unset" to be "a
reserved out-of-range integer" — the conventional sentinel -1. -/
def encodeColor : Option Color → Int
  | none => -1
  | some c => (c : Fin 256).val

/-- Modelled from the spec: decoding of a colour column.  Integer codes
in the valid palette range `0..255` decode to that colour; anything
outside the range (in particular the sentinel -1) decodes to unset. -/
def decodeColor (n : Int) : Option Color :=
  if h : 0 ≤ n ∧ n < 256 then
    some (⟨n.toNat, by omega⟩ : Fin 256)
  else none

/-- Modelled from the spec: the persistence encoding of `Plan.advance`
into the `Advance INT NOT NULL` column.  The repository declares the
column but has no row write code; section 4.1 persists a present value as
its (never negative) count of seconds, and section 6 requires absence to
persist "as a reserved value distinct from the valid duration range
(e.g., -1)". -/
def encodeAdvance : Option Int → Int
  | none => -1
  | some s => s

/-- Modelled from the spec: decoding of the `Advance` column.  The single
sentinel -1 decodes to absent; every other value is a duration. -/
def decodeAdvance (n : Int) : Option Int :=
  if n = -1 then none else some n

/-! ### Struct-to-row correspondence for `Plan`

The source's own comments fix how struct fields map to columns: `tag`
is stored as the `Tag.id` (src/lib/src/db.rs:44-45), `start` and `until`
as epoch-second integers (src/lib/src/db.rs:120-123). -/

/-- The field names of the in-memory `Plan` struct, in declaration order
(src/lib/src/db.rs:47-90). -/
def planStructFields : List String :=
  ["id", "description", "start", "until", "advance", "done", "tag",
   "notify", "porsmo"]

/-- The column of the `Plan` table each struct field populates, per the
source's comments. -/
def planStructFieldColumn (f : String) : String :=
  if f = "id" then "ID"
  else if f = "description" then "Descr"
  else if f = "start" then "StartTime"
  else if f = "until" then "Until"
  else if f = "advance" then "Advance"
  else if f = "done" then "Done"
  else if f = "tag" then "TagID"
  else if f = "notify" then "Notify"
  else if f = "porsmo" then "Porsmo"
  else f

/-! ### Concrete states and runs used by the theorems -/

/-- A world whose store at `DB_URL` exists but holds no tables — exactly
the state a first-ever run of the bootstrap leaves behind. -/
def schemalessStoreWorld : World :=
  fun u =>
    if u = DB_URL then { dbExists := true, tagTables := 0, planTables := 0 }
    else emptyStore

/-- Whether a bootstrap run returned a handle. -/
def succeeded (r : Except DbError (World × Handle)) : Bool :=
  match r with
  | Except.ok _ => true
  | Except.error _ => false

/-- The result of the bootstrap's first run on the empty world. -/
def firstRunResult : World × Handle :=
  (connect emptyWorld DB_URL, { url := DB_URL })

/-! ## Theorems for the claims -/

/-- C1: the bootstrap does NOT behave as claimed; the code's branches are
inverted.  Evaluating the embedded `create_or_get_handle` at the two
decisive states: on a first-ever startup (no store at `DB_URL`) the run
returns a handle having created NO tables, and on a store that already
exists (still schemaless after such a first run) the run DOES execute the
two table creations.  The source matches on `!Sqlite::database_exists`,
so each branch runs in exactly the situation the claim — and the code's
own `println!` messages and doc comment — assign to the other branch. -/
theorem bootstrap_branches_inverted :
    resultTables (create_or_get_handle env0 emptyWorld) = some (0, 0) ∧
    resultTables (create_or_get_handle env0 schemalessStoreWorld) =
      some (1, 1) := by
  constructor <;> decide

/-- C2: two bootstrap calls in sequence against any world whose `DB_URL`
location is initially empty both succeed, and afterwards exactly one
`Tag` table and one `Plan` table are present, with no duplicates. (The
first call succeeds via the immediate-return arm, the second via the
creation arm; the net observable outcome is as the claim states.) -/
theorem twoCalls_idempotent_bootstrap (w : World)
    (h : w DB_URL = emptyStore) :
    succeeded (create_or_get_handle env0 w) = true ∧
    resultTables (twoCalls env0 w) = some (1, 1) := by
  have hfirst : create_or_get_handle env0 w =
      Except.ok (connect w DB_URL, { url := DB_URL }) := by
    simp [create_or_get_handle, database_exists, h, emptyStore]
  constructor
  · simp [hfirst, succeeded]
  · simp [twoCalls, create_or_get_handle, database_exists, connect,
      execCreateTagTable, execCreatePlanTable, env0, resultTables, h,
      emptyStore]

/-- C2 witness: the two-call property at the concrete empty world. -/
theorem twoCalls_idempotent_bootstrap_witness :
    emptyWorld DB_URL = emptyStore ∧
    (succeeded (create_or_get_handle env0 emptyWorld) = true ∧
     resultTables (twoCalls env0 emptyWorld) = some (1, 1)) :=
  ⟨rfl, twoCalls_idempotent_bootstrap emptyWorld rfl⟩

/-- C4: on the path where the two table-creation statements run (given
the source's negated scrutinee, that is the arm taken when the database
exists at `DB_URL`), a failure of either statement means no handle is
returned: the first error encountered is propagated to the caller as-is
(the `?` operator), with no retry and no partial-success result. -/
theorem creation_errors_propagate (env : Env) (w : World)
    (hexists : database_exists w DB_URL = true) :
    (env.tagCreateFails = true →
      create_or_get_handle env w =
        Except.error (DbError.execFailed "Tag")) ∧
    (env.tagCreateFails = false → env.planCreateFails = true →
      create_or_get_handle env w =
        Except.error (DbError.execFailed "Plan")) := by
  constructor
  · intro htag
    simp [create_or_get_handle, hexists, execCreateTagTable, htag]
  · intro htag hplan
    simp [create_or_get_handle, hexists, execCreateTagTable,
      execCreatePlanTable, htag, hplan]

/-- C4 witness: with the store present and the `Tag` creation failing,
the bootstrap returns exactly that error and no handle. -/
theorem creation_errors_propagate_witness :
    database_exists schemalessStoreWorld DB_URL = true ∧
    create_or_get_handle
        { tagCreateFails := true, planCreateFails := false }
        schemalessStoreWorld =
      Except.error (DbError.execFailed "Tag") :=
  ⟨by decide,
   (creation_errors_propagate
      { tagCreateFails := true, planCreateFails := false }
      schemalessStoreWorld (by decide)).1 rfl⟩

/-- The claim that the storage location is configurable per call,
following the spec's words ("a single configurable string ... passed to
the call ... rather than fixed process-wide state"): if the location were
an input of the call, successful runs could return handles at
caller-chosen locations, so no single fixed url would cover the handles
of all successful runs. -/
def bootstrapLocationConfigurable : Prop :=
  ¬ ∃ fixedUrl : String, ∀ (env : Env) (w : World) (r : World × Handle),
      create_or_get_handle env w = Except.ok r → r.2.url = fixedUrl

/-- C3 counterexample: the location is NOT configurable — every
successful bootstrap run returns a handle at one fixed url (the
process-wide constant `DB_URL` baked into `create_or_get_handle`; the
operation takes no location input). -/
theorem location_not_configurable : ¬ bootstrapLocationConfigurable := by
  intro hclaim
  apply hclaim
  refine ⟨DB_URL, fun env w r hr => ?_⟩
  simp only [create_or_get_handle] at hr
  split at hr
  · injection hr with hr
    rw [← hr]
  · split at hr
    · exact Except.noConfusion hr
    · split at hr
      · exact Except.noConfusion hr
      · injection hr with hr
        rw [← hr]

/-- C3 amended: the bootstrap operation takes no location input; the
storage location is the fixed process-wide constant `DB_URL`.  Every
successful run returns a handle referring to `DB_URL`, and leaves the
store state at every other location unchanged. -/
theorem bootstrap_location_is_fixed_constant (env : Env) (w : World)
    (r : World × Handle) (u : String)
    (hr : create_or_get_handle env w = Except.ok r) (hu : u ≠ DB_URL) :
    r.2.url = DB_URL ∧ r.1 u = w u := by
  simp only [create_or_get_handle] at hr
  split at hr
  · injection hr with hr
    rw [← hr]
    exact ⟨rfl, by simp [connect, hu]⟩
  · split at hr
    · exact Except.noConfusion hr
    · split at hr
      · exact Except.noConfusion hr
      · injection hr with hr
        rename_i ex1 w2 htag ex2 w3 hplan
        rw [← hr]
        refine ⟨rfl, ?_⟩
        simp only [execCreateTagTable] at htag
        simp only [execCreatePlanTable] at hplan
        split at htag
        · exact Except.noConfusion htag
        · injection htag with htag
          split at hplan
          · exact Except.noConfusion hplan
          · injection hplan with hplan
            rw [← hplan, ← htag]
            simp [connect, hu]

/-- C3 witness: the amended statement at the concrete first run, checked
at the unrelated location "sqlite://other.db". -/
theorem bootstrap_location_is_fixed_constant_witness :
    (create_or_get_handle env0 emptyWorld = Except.ok firstRunResult ∧
     "sqlite://other.db" ≠ DB_URL) ∧
    (firstRunResult.2.url = DB_URL ∧
     firstRunResult.1 "sqlite://other.db" = emptyWorld "sqlite://other.db") :=
  ⟨⟨rfl, by decide⟩,
   bootstrap_location_is_fixed_constant env0 emptyWorld firstRunResult
     "sqlite://other.db" rfl (by decide)⟩

/-- The claim that the `until > start` invariant holds of every
constructible `Plan`, following the spec's words ("constructing a Plan
with `until` earlier than or equal to `start` must be rejected before it
reaches storage"). -/
def planInvariantEnforced : Prop :=
  ∀ p : Plan, p.start < p.«until»

/-- A `Plan` whose `until` equals its `start` — freely constructible,
since the source's `Plan` is a bare struct with no constructor and no
validation anywhere in the crate. -/
def badPlan : Plan :=
  { id := 0, description := "cram", start := 5, «until» := 5,
    advance := none, done := false, tag := none, notify := false,
    porsmo := false }

/-- C5 counterexample: the invariant is NOT enforced — `badPlan`, with
`until = start = 5`, is a value of the `Plan` type, so not every
constructible `Plan` satisfies `until > start`. -/
theorem plan_invariant_not_enforced : ¬ planInvariantEnforced :=
  fun hclaim => absurd (hclaim badPlan) (by decide)

/-- C5 amended: the core performs no rejection of `until ≤ start`; a
`Plan` violating the invariant is constructible (the struct has no
validating constructor, and no storage-write code exists in the core),
so `until > start` is a precondition on the constructing layer, not a
property this code enforces. -/
theorem plan_invariant_is_caller_precondition :
    badPlan.«until» ≤ badPlan.start := by decide

/-- C6: the absent state of `advance` persists as the single reserved
sentinel -1, distinct from zero; a `Plan.advance` of `none`, encoded and
decoded, comes back as `none` and never as a zero duration, and every
present (nonnegative) duration round-trips exactly.  The sentinel is the
only code that decodes to absent, so absent and zero never collapse. -/
theorem advance_sentinel_round_trip (s : Int) (hs : 0 ≤ s) :
    decodeAdvance (encodeAdvance none) = none ∧
    decodeAdvance (encodeAdvance (some s)) = some s ∧
    encodeAdvance none = -1 ∧
    encodeAdvance none ≠ encodeAdvance (some 0) ∧
    (∀ n : Int, decodeAdvance n = none ↔ n = -1) := by
  refine ⟨by decide, ?_, by decide, by decide, ?_⟩
  · have hne : s ≠ -1 := by omega
    simp [decodeAdvance, encodeAdvance, hne]
  · intro n
    by_cases hn : n = -1 <;> simp [decodeAdvance, hn]

/-- C6 witness: the round trip at the concrete duration of 60 seconds. -/
theorem advance_sentinel_round_trip_witness :
    (0 : Int) ≤ 60 ∧
    (decodeAdvance (encodeAdvance none) = none ∧
     decodeAdvance (encodeAdvance (some 60)) = some 60 ∧
     encodeAdvance none = -1 ∧
     encodeAdvance none ≠ encodeAdvance (some 0) ∧
     (∀ n : Int, decodeAdvance n = none ↔ n = -1)) :=
  ⟨by decide, advance_sentinel_round_trip 60 (by decide)⟩

/-- C7: for every valid colour code and for the unset sentinel, encoding
then decoding reproduces the original value exactly (this covers the
optional `border` and `fill` fields at any `Option Color`, and the
required `color` field at any `some c`); the unset encoding is -1, a
small integer outside the valid code range `0..255`, so it never
collides with the encoding of any real colour. -/
theorem color_code_round_trip :
    (∀ oc : Option Color, decodeColor (encodeColor oc) = oc) ∧
    encodeColor none = -1 ∧
    ¬ (0 ≤ encodeColor none ∧ encodeColor none < 256) ∧
    (∀ c : Color, encodeColor (some c) ≠ encodeColor none) := by
  refine ⟨?_, by decide, by decide, ?_⟩
  · intro oc
    cases oc with
    | none => simp [encodeColor, decodeColor]
    | some c =>
        have hlt : ((c : Fin 256).val : Int) < 256 := by
          exact_mod_cast Int.ofNat_lt.mpr (c : Fin 256).isLt
        simp only [encodeColor, decodeColor]
        rw [dif_pos ⟨Int.ofNat_nonneg _, hlt⟩]
        simp [Fin.ext_iff]
  · intro c
    simp only [encodeColor]
    have : (0 : Int) ≤ ((c : Fin 256).val : Int) := Int.ofNat_nonneg _
    omega

/-- C8: the schema the bootstrap's creation arm issues consists of
exactly the two structures of the spec's section 4.2 table: the column
names are the SQL identifiers the spec's field labels denote (under the
recorded `specFieldName` correspondence), in the spec's order; the
column types are the ones the spec assigns; every column is NOT NULL;
each table's primary key is its id column; and the single foreign key is
Plan's tag-id referencing Tag's id. -/
theorem schema_matches_spec_table :
    bootstrapSchema = [tagTableDef, planTableDef] ∧
    bootstrapSchema.length = 2 ∧
    tagTableDef.name = "Tag" ∧
    planTableDef.name = "Plan" ∧
    tagTableDef.columns.map Column.name =
      specTagFields.map (specFieldName "Tag") ∧
    planTableDef.columns.map Column.name =
      specPlanFields.map (specFieldName "Plan") ∧
    tagTableDef.columns.map Column.ty = specTagFields.map specFieldType ∧
    planTableDef.columns.map Column.ty = specPlanFields.map specFieldType ∧
    (∀ c ∈ tagTableDef.columns, c.notNull = true) ∧
    (∀ c ∈ planTableDef.columns, c.notNull = true) ∧
    tagTableDef.primaryKey = [specFieldName "Tag" "id"] ∧
    planTableDef.primaryKey = [specFieldName "Plan" "id"] ∧
    tagTableDef.foreignKeys = [] ∧
    planTableDef.foreignKeys =
      [{ column := specFieldName "Plan" "tag-id", refTable := "Tag",
         refColumn := specFieldName "Tag" "id" }] := by
  decide

/-- C9: every `Tag` identifier is a `u8`, so any collection of tags with
pairwise distinct ids has at most 256 elements, and every constructible
tag's id is below 256 — the ceiling is enforced by the id's type. -/
theorem tag_id_ceiling (l : List Tag)
    (h : l.Pairwise (fun a b => a.id ≠ b.id)) :
    l.length ≤ 256 ∧ ∀ t : Tag, (t.id : Fin 256).val < 256 := by
  constructor
  · have hnodup : (l.map Tag.id).Nodup := by
      rw [List.Nodup, List.pairwise_map]
      exact h
    have hcard := hnodup.length_le_card
    rw [List.length_map] at hcard
    calc l.length ≤ Fintype.card (Fin 256) := hcard
      _ = 256 := Fintype.card_fin 256
  · intro t
    exact (t.id : Fin 256).isLt

/-- A sample tag, as in the spec's section 8 scenario. -/
def mathsTag : Tag :=
  { id := 0, name := "Maths", border := none,
    fill := some (7 : Fin 256), color := (0 : Fin 256) }

/-- A second sample tag with a different id. -/
def choresTag : Tag :=
  { id := 1, name := "Chores", border := some (2 : Fin 256),
    fill := none, color := (15 : Fin 256) }

/-- C9 witness: the ceiling theorem applied to the concrete two-element
tag list with distinct ids. -/
theorem tag_id_ceiling_witness :
    ([mathsTag, choresTag].Pairwise fun a b => a.id ≠ b.id) ∧
    (([mathsTag, choresTag] : List Tag).length ≤ 256 ∧
     ∀ t : Tag, (t.id : Fin 256).val < 256) :=
  ⟨by
      refine List.Pairwise.cons ?_ (List.pairwise_singleton _ _)
      intro b hb
      rw [List.mem_singleton] at hb
      rw [hb]
      decide,
   tag_id_ceiling [mathsTag, choresTag]
     (by
        refine List.Pairwise.cons ?_ (List.pairwise_singleton _ _)
        intro b hb
        rw [List.mem_singleton] at hb
        rw [hb]
        decide)⟩

/-- C10: the `Plan` table the bootstrap creates requires a NOT NULL
`PlanName` column, but the in-memory `Plan` struct has no name field: no
struct field populates `PlanName` under the source's own struct-to-column
correspondence, and `PlanName` is exactly the column a `Plan` struct
value leaves undetermined — so no `Plan` value alone determines a
complete row of the persisted `Plan` schema. -/
theorem plan_struct_underdetermines_row :
    "PlanName" ∈ planTableDef.columns.map Column.name ∧
    (planTableDef.columns.filter (fun c => c.name = "PlanName")).map
        Column.notNull = [true] ∧
    "PlanName" ∉ planStructFields.map planStructFieldColumn ∧
    (planTableDef.columns.map Column.name).filter
        (fun n => !(planStructFields.map planStructFieldColumn).contains n)
      = ["PlanName"] ∧
    "name" ∉ planStructFields ∧
    "PlanName" ∉ planStructFields := by
  decide

end Plannrs
